import Mathlib

/-!
Shallow embedding of the CASSE backend's authorization-and-audit core
(`apps/users/services/users.py`, `apps/users/selectors/users.py`,
`apps/audit/services/audit_log.py`, `apps/authn/views.py`,
`apps/users/serializers.py`, `apps/users/models.py`).

Modelling conventions:
- Django `TextChoices` values are plain strings, exactly as they are stored
  by the ORM (`"ADMIN"`, `"ACTIVE"`, ...).
- A user row is the record `UserRec`; the user table is a `List UserRec`.
- A Python `dict` of request data is an association list
  `List (String × String)`; dict keys are unique, which theorems assume
  where it matters.
- Fallible Python code becomes `Except SvcError`; each `SvcError`
  constructor corresponds to one raise site (see the comments on it).
- A call to `log_audit_event` made by a service is recorded as an
  `AuditEvent` in the returned trace; the audit logger itself
  (`log_audit_event`) is modelled separately for its own contract.
- `uuid.uuid4()` and `timezone.now()` are modelled as explicit arguments
  (`freshId`, `now`).
-/

namespace CASSE

/-- Model of `User.Role` choices (`apps/users/models.py`). -/
def roleChoices : List String := ["ADMIN", "CLIENT", "INTERVENTORIA", "SUPERVISOR"]

/-- Model of `User.Status` choices (`apps/users/models.py`). -/
def statusChoices : List String := ["ACTIVE", "SUSPENDED"]

/-- A row of the custom `User` model (`apps/users/models.py`).
`created_at`, `updated_at`, `last_login_at` are abstract instants (`Nat`).
All character fields are strings, as stored by the ORM. -/
structure UserRec where
  id : String
  full_name : String
  id_type : String
  id_number : String
  birth_date : String
  phone : String
  address : String
  profile_photo_url : String
  email_primary : String
  email_secondary : String
  role : String
  status : String
  password_hash : String
  created_at : Nat
  updated_at : Nat
  last_login_at : Option Nat
  deriving Repr, DecidableEq

/-- Metadata values appearing in audit-log `metadata` JSON objects. -/
inductive MetaVal where
  | s (v : String)
  | b (v : Bool)
  | list (v : List String)
  | changes (v : List (String × String × String))
  deriving Repr, DecidableEq

/-- An audit event as passed to `log_audit_event`
(`apps/audit/services/audit_log.py`). `actor` is the actor user's id,
`none` for system-originated events. -/
structure AuditEvent where
  actor : Option String
  action : String
  entity : String
  entity_id : Option String
  metadata : List (String × MetaVal)
  ip_address : Option String
  deriving Repr, DecidableEq

/-- Typed domain errors; each constructor corresponds to one raise site in
the source (the quoted messages). -/
inductive SvcError where
  /-- `ValidationError('El password es obligatorio')` -/
  | passwordRequired
  /-- `ValidationError('No se pueden actualizar los siguientes campos: ...')`,
  carrying the offending prohibited keys. -/
  | prohibitedFields (fields : List String)
  /-- `ValidationError('No hay campos válidos para actualizar')` -/
  | noValidFields
  /-- The domain duplicate-email error: `ValidationError('El email ya está en uso')`
  raised from the `IntegrityError` handler in the service, and
  `serializers.ValidationError('Este email ya está en uso')` in the serializers. -/
  | duplicateEmail
  /-- `django.db.IntegrityError` — the raw storage uniqueness violation. -/
  | integrityError
  /-- `PermissionDenied` -/
  | permissionDenied
  /-- `User.DoesNotExist` -/
  | notFound
  /-- `ValueError` (`'El email_primary es obligatorio'`, `'actor_user es requerido...'`) -/
  | valueError
  /-- Python `KeyError` from `data.pop('email_primary')` on a dict lacking the key. -/
  | keyError
  /-- DRF required-field serializer error, carrying the missing field. -/
  | missingRequired (field : String)
  deriving Repr, DecidableEq

/-- Lookup of a dict key in an association list (first occurrence, as in a
Python dict where keys are unique). -/
def lookupKey : List (String × String) → String → Option String
  | [], _ => none
  | (k, v) :: rest, key => if k = key then some v else lookupKey rest key

/-- Model of `dict.pop(k, ...)` key removal. -/
def eraseKey (d : List (String × String)) (k : String) : List (String × String) :=
  d.filter (fun kv => kv.1 ≠ k)

/-- Model of `dict.setdefault(k, v)`. -/
def setdefault (d : List (String × String)) (k v : String) : List (String × String) :=
  if (lookupKey d k).isSome then d else d ++ [(k, v)]

/-- In-place replacement of the value at key `k` (used for the serializer's
normalisation of `email_primary`). -/
def setKey (d : List (String × String)) (k v : String) : List (String × String) :=
  d.map (fun kv => if kv.1 = k then (k, v) else kv)

/-- Python truthiness of an optional string (`if not password: ...`). -/
def truthy : Option String → Bool
  | none => false
  | some s => s ≠ ""

/-- Python `str.lower()` (ASCII, as Django stores these fields). -/
def pyLower (s : String) : String := String.mk (s.data.map Char.toLower)

/-- Python `str.strip()`: drop leading and trailing whitespace. -/
def pyStrip (s : String) : String :=
  String.mk (((s.data.dropWhile Char.isWhitespace).reverse.dropWhile Char.isWhitespace).reverse)

/-- Opaque credential hash (`user.set_password`); the Credential Service is
external, so any injective tagging works for the model. -/
def hashPassword (p : String) : String := "pbkdf2#" ++ p

/-- Opaque credential verification (`user.check_password`). -/
def verifyPassword (p h : String) : Bool := hashPassword p == h

/-- Splits a character list at its LAST `'@'` into (local part, domain),
or `none` when no `'@'` occurs — the behaviour of Python's
`email.rsplit("@", 1)` used by Django's `BaseUserManager.normalize_email`. -/
def rsplitAtSign : List Char → Option (List Char × List Char)
  | [] => none
  | c :: rest =>
    match rsplitAtSign rest with
    | some (l, d) => some (c :: l, d)
    | none => if c = '@' then some ([], rest) else none

/-- Django `BaseUserManager.normalize_email`: strip, then lowercase the
domain part after the last `'@'`; if there is no `'@'` the original string
is returned unchanged. -/
def normalize_email (e : String) : String :=
  match rsplitAtSign (pyStrip e).data with
  | some (l, d) => String.mk (l ++ '@' :: d.map Char.toLower)
  | none => e

/-- Model of `setattr(user, key, value)` guarded by `hasattr(user, key)` as used by
the update services, for the string-typed columns that the serializers can
put into `data` (`UserUpdateByAdminSerializer`/`UserMeUpdateSerializer`
field lists; `password` is always popped before the loop). Any other key is
left unapplied. -/
def setField (u : UserRec) (key value : String) : UserRec :=
  if key = "full_name" then { u with full_name := value }
  else if key = "id_type" then { u with id_type := value }
  else if key = "id_number" then { u with id_number := value }
  else if key = "birth_date" then { u with birth_date := value }
  else if key = "phone" then { u with phone := value }
  else if key = "address" then { u with address := value }
  else if key = "profile_photo_url" then { u with profile_photo_url := value }
  else if key = "email_primary" then { u with email_primary := value }
  else if key = "email_secondary" then { u with email_secondary := value }
  else if key = "role" then { u with role := value }
  else if key = "status" then { u with status := value }
  else u

/-- Model of the loop `for key, value in data.items(): if hasattr(user, key): setattr(...)`. -/
def applyFields (u : UserRec) (data : List (String × String)) : UserRec :=
  data.foldl (fun acc kv => setField acc kv.1 kv.2) u

/-- Model-instance construction `self.model(email_primary=..., **extra)` in
`UserManager.create_user`: fields present in `extra` are taken from it,
`role`/`status` otherwise take their model defaults (`CLIENT`/`ACTIVE`,
`apps/users/models.py`), the remaining text columns default to the empty
string. -/
def mkUser (freshId email : String) (extra : List (String × String)) (now : Nat) : UserRec :=
  { id := freshId
    full_name := (lookupKey extra "full_name").getD ""
    id_type := (lookupKey extra "id_type").getD ""
    id_number := (lookupKey extra "id_number").getD ""
    birth_date := (lookupKey extra "birth_date").getD ""
    phone := (lookupKey extra "phone").getD ""
    address := (lookupKey extra "address").getD ""
    profile_photo_url := (lookupKey extra "profile_photo_url").getD ""
    email_primary := email
    email_secondary := (lookupKey extra "email_secondary").getD ""
    role := (lookupKey extra "role").getD "CLIENT"
    status := (lookupKey extra "status").getD "ACTIVE"
    password_hash := ""
    created_at := now
    updated_at := now
    last_login_at := none }

/-- The uniqueness constraints enforced by the storage layer at save time
(`email_primary` unique; `(id_type, id_number)` unique together,
`apps/users/models.py`): `true` when inserting `u` would violate one. -/
def insertConflict (store : List UserRec) (u : UserRec) : Bool :=
  store.any (fun v => v.email_primary == u.email_primary) ||
  store.any (fun v => v.id_type == u.id_type && v.id_number == u.id_number)

/-- Model of `UserManager.create_user` (`apps/users/models.py`) over the store:
requires a non-empty `email_primary` (else `ValueError`), normalises the
email, builds the row, hashes the password when one is given, and saves —
where saving surfaces a uniqueness violation as `IntegrityError`. -/
def create_user (email_primary : String) (password : Option String)
    (extra : List (String × String)) (freshId : String) (now : Nat)
    (store : List UserRec) : Except SvcError (UserRec × List UserRec) :=
  if email_primary = "" then .error .valueError
  else
    let email := normalize_email email_primary
    let u0 := mkUser freshId email extra now
    let u := if truthy password then { u0 with password_hash := hashPassword (password.getD "") } else u0
    if insertConflict store u then .error .integrityError
    else .ok (u, store ++ [u])

/-- Audit action codes. The module `apps/audit/constants.py` is not in the
source tree; the codes are the closed vocabulary named by the spec and by
the service code importing them, used here as their own string values. -/
def USER_REGISTERED : String := "USER_REGISTERED"

def USER_CREATED_BY_ADMIN : String := "USER_CREATED_BY_ADMIN"

def USER_UPDATED_BY_ADMIN : String := "USER_UPDATED_BY_ADMIN"

def USER_UPDATED_SELF : String := "USER_UPDATED_SELF"

def USER_SUSPENDED : String := "USER_SUSPENDED"

def USER_ACTIVATED : String := "USER_ACTIVATED"

def LOGIN_SUCCESS : String := "LOGIN_SUCCESS"

def LOGIN_FAILED : String := "LOGIN_FAILED"

/-- Model of `register_user` (`apps/users/services/users.py`): pops the password
(must be truthy), applies the `role`/`status` defaults only when absent,
pops `email_primary` (a missing key is a `KeyError`), delegates to
`create_user`, maps the raw `IntegrityError` to the domain duplicate-email
`ValidationError`, and emits `USER_REGISTERED` with the new user as actor. -/
def register_user (data : List (String × String)) (ip : Option String)
    (freshId : String) (now : Nat) (store : List UserRec) :
    Except SvcError (UserRec × List UserRec × List AuditEvent) :=
  let password := lookupKey data "password"
  if ¬ truthy password then .error .passwordRequired
  else
    let d1 := eraseKey data "password"
    let d2 := setdefault d1 "role" "CLIENT"
    let d3 := setdefault d2 "status" "ACTIVE"
    match lookupKey d3 "email_primary" with
    | none => .error .keyError
    | some e =>
      let d4 := eraseKey d3 "email_primary"
      match create_user e password d4 freshId now store with
      | .error .integrityError => .error .duplicateEmail
      | .error err => .error err
      | .ok (u, store') =>
        .ok (u, store',
          [{ actor := some u.id, action := USER_REGISTERED, entity := "User",
             entity_id := some u.id,
             metadata := [("email", .s u.email_primary), ("role", .s u.role)],
             ip_address := ip }])

/-- Model of `create_user_by_admin` (`apps/users/services/users.py`): admin-only,
then the same password/creation steps as registration (no `role`/`status`
defaulting — the caller supplies them), emitting `USER_CREATED_BY_ADMIN`. -/
def create_user_by_admin (data : List (String × String)) (actor_user : UserRec)
    (ip : Option String) (freshId : String) (now : Nat) (store : List UserRec) :
    Except SvcError (UserRec × List UserRec × List AuditEvent) :=
  if actor_user.role ≠ "ADMIN" then .error .permissionDenied
  else
    let password := lookupKey data "password"
    if ¬ truthy password then .error .passwordRequired
    else
      let d1 := eraseKey data "password"
      match lookupKey d1 "email_primary" with
      | none => .error .keyError
      | some e =>
        let d2 := eraseKey d1 "email_primary"
        match create_user e password d2 freshId now store with
        | .error .integrityError => .error .duplicateEmail
        | .error err => .error err
        | .ok (u, store') =>
          .ok (u, store',
            [{ actor := some actor_user.id, action := USER_CREATED_BY_ADMIN,
               entity := "User", entity_id := some u.id,
               metadata := [("created_user_email", .s u.email_primary),
                            ("created_user_role", .s u.role),
                            ("created_user_status", .s u.status),
                            ("created_by", .s actor_user.id)],
               ip_address := ip }])

/-- Constant `SELF_EDITABLE_FIELDS` (`apps/users/services/users.py`). -/
def SELF_EDITABLE_FIELDS : List String :=
  ["full_name", "phone", "address", "email_secondary", "profile_photo_url", "password"]

/-- Constant `SELF_PROHIBITED_FIELDS` (`apps/users/services/users.py`). -/
def SELF_PROHIBITED_FIELDS : List String :=
  ["role", "status", "email_primary", "id_type", "id_number",
   "birth_date", "created_at", "updated_at", "last_login_at"]

/-- Model of `update_user_by_admin` (`apps/users/services/users.py`): admin-only;
loads the target (else `DoesNotExist`); snapshots `role`/`status`/
`email_primary`; pops the password; applies every remaining `data` field
with a `hasattr` guard; re-hashes the password when truthy; saves (a
uniqueness violation propagates as the raw `IntegrityError`); emits
`USER_UPDATED_BY_ADMIN` whose metadata carries a `changes` diff of the
three snapshotted fields only when at least one of them changed. -/
def update_user_by_admin (user_id : String) (data : List (String × String))
    (actor_user : UserRec) (ip : Option String) (store : List UserRec) :
    Except SvcError (UserRec × List UserRec × List AuditEvent) :=
  if actor_user.role ≠ "ADMIN" then .error .permissionDenied
  else
    match store.find? (fun v => v.id == user_id) with
    | none => .error .notFound
    | some user =>
      let oldRole := user.role
      let oldStatus := user.status
      let oldEmail := user.email_primary
      let password := lookupKey data "password"
      let d1 := eraseKey data "password"
      let u1 := applyFields user d1
      let u2 := if truthy password
                then { u1 with password_hash := hashPassword (password.getD "") }
                else u1
      if store.any (fun v => v.id ≠ user.id &&
          (v.email_primary == u2.email_primary ||
           (v.id_type == u2.id_type && v.id_number == u2.id_number))) then
        .error .integrityError
      else
        let changes : List (String × String × String) :=
          (if oldRole ≠ u2.role then [("role", oldRole, u2.role)] else []) ++
          (if oldStatus ≠ u2.status then [("status", oldStatus, u2.status)] else []) ++
          (if oldEmail ≠ u2.email_primary then [("email_primary", oldEmail, u2.email_primary)] else [])
        let metadata :=
          [("updated_user_id", MetaVal.s u2.id),
           ("updated_user_email", MetaVal.s u2.email_primary),
           ("updated_by", MetaVal.s actor_user.id)] ++
          (if changes ≠ [] then [("changes", MetaVal.changes changes)] else [])
        .ok (u2, store.map (fun v => if v.id == user.id then u2 else v),
          [{ actor := some actor_user.id, action := USER_UPDATED_BY_ADMIN,
             entity := "User", entity_id := some u2.id,
             metadata := metadata, ip_address := ip }])

/-- Model of `update_self_user` (`apps/users/services/users.py`): rejects the whole
request when any `data` key is prohibited (the error names the offending
keys); keeps only the editable fields and rejects when none remain; pops
the password; applies the remaining fields; re-hashes a truthy password;
emits `USER_UPDATED_SELF` listing the updated field names plus a
`password_changed` flag. Returning `.error` applies no field at all. -/
def update_self_user (user : UserRec) (data : List (String × String))
    (ip : Option String) : Except SvcError (UserRec × List AuditEvent) :=
  let prohibited := (data.map Prod.fst).filter (fun k => SELF_PROHIBITED_FIELDS.contains k)
  if prohibited ≠ [] then .error (.prohibitedFields prohibited)
  else
    let allowed := data.filter (fun kv => SELF_EDITABLE_FIELDS.contains kv.1)
    if allowed = [] then .error .noValidFields
    else
      let password := lookupKey allowed "password"
      let a1 := eraseKey allowed "password"
      let u1 := applyFields user a1
      let u2 := if truthy password
                then { u1 with password_hash := hashPassword (password.getD "") }
                else u1
      let metadata :=
        [("updated_fields", MetaVal.list (a1.map Prod.fst))] ++
        (if truthy password then [("password_changed", MetaVal.b true)] else [])
      .ok (u2,
        [{ actor := some user.id, action := USER_UPDATED_SELF, entity := "User",
           entity_id := some user.id, metadata := metadata, ip_address := ip }])

/-- Model of `suspend_user` (`apps/users/services/users.py`): admin-only; loads the
target (else `DoesNotExist`); an already-suspended user is returned as-is
with no event; otherwise the status becomes `SUSPENDED`, is saved, and one
`USER_SUSPENDED` event is emitted. -/
def suspend_user (user_id : String) (actor_user : UserRec) (ip : Option String)
    (store : List UserRec) :
    Except SvcError (UserRec × List UserRec × List AuditEvent) :=
  if actor_user.role ≠ "ADMIN" then .error .permissionDenied
  else
    match store.find? (fun v => v.id == user_id) with
    | none => .error .notFound
    | some user =>
      if user.status = "SUSPENDED" then .ok (user, store, [])
      else
        let u := { user with status := "SUSPENDED" }
        .ok (u, store.map (fun v => if v.id == user.id then u else v),
          [{ actor := some actor_user.id, action := USER_SUSPENDED, entity := "User",
             entity_id := some u.id,
             metadata := [("suspended_user_email", .s u.email_primary),
                          ("suspended_by", .s actor_user.id)],
             ip_address := ip }])

/-- Model of `activate_user` (`apps/users/services/users.py`): admin-only; an
already-active user is returned as-is with no event; otherwise the status
becomes `ACTIVE` and one `USER_ACTIVATED` event is emitted. -/
def activate_user (user_id : String) (actor_user : UserRec) (ip : Option String)
    (store : List UserRec) :
    Except SvcError (UserRec × List UserRec × List AuditEvent) :=
  if actor_user.role ≠ "ADMIN" then .error .permissionDenied
  else
    match store.find? (fun v => v.id == user_id) with
    | none => .error .notFound
    | some user =>
      if user.status = "ACTIVE" then .ok (user, store, [])
      else
        let u := { user with status := "ACTIVE" }
        .ok (u, store.map (fun v => if v.id == user.id then u else v),
          [{ actor := some actor_user.id, action := USER_ACTIVATED, entity := "User",
             entity_id := some u.id,
             metadata := [("activated_user_email", .s u.email_primary),
                          ("activated_by", .s actor_user.id)],
             ip_address := ip }])

/-- Lookup in an audit metadata JSON object. -/
def lookupMeta : List (String × MetaVal) → String → Option MetaVal
  | [], _ => none
  | (k, v) :: rest, key => if k = key then some v else lookupMeta rest key

/-- Result of a `log_audit_event` call: the value returned to the caller
(`none` on skip or failure), the audit table afterwards, and whether the
missing-field warning fired. -/
structure AuditResult where
  result : Option AuditEvent
  log : List AuditEvent
  warned : Bool
  deriving Repr, DecidableEq

/-- Model of `log_audit_event` (`apps/audit/services/audit_log.py`). `persistOk`
models whether `AuditLog.objects.create` succeeds; on failure the
exception is swallowed (`logger.error`) and `None` is returned. An empty
`action` or `entity` skips creation with a warning and returns `None`. The
function is total: no path raises to the caller. -/
def log_audit_event (persistOk : Bool) (actor_user : Option String)
    (action entity : String) (entity_id : Option String)
    (metadata : List (String × MetaVal)) (ip_address : Option String)
    (log : List AuditEvent) : AuditResult :=
  if action = "" ∨ entity = "" then
    { result := none, log := log, warned := true }
  else if persistOk then
    let e : AuditEvent :=
      { actor := actor_user, action := action, entity := entity,
        entity_id := entity_id, metadata := metadata, ip_address := ip_address }
    { result := some e, log := log ++ [e], warned := false }
  else
    { result := none, log := log, warned := false }

/-- Constant `ALLOWED_LIST_ROLES` (`apps/users/selectors/users.py`). -/
def ALLOWED_LIST_ROLES : List String := ["ADMIN", "SUPERVISOR", "INTERVENTORIA"]

/-- Whether `needle` occurs as a contiguous sublist of `hay`. -/
def subListOf (needle : List Char) : List Char → Bool
  | [] => needle.isEmpty
  | c :: rest => needle.isPrefixOf (c :: rest) || subListOf needle rest

/-- Django `field__icontains=search`: case-insensitive substring match. -/
def icontains (hay needle : String) : Bool :=
  subListOf (pyLower needle).data (pyLower hay).data

/-- The `Q(...) | Q(...)` search predicate of `list_users`. -/
def searchMatch (u : UserRec) (q : String) : Bool :=
  icontains u.full_name q || icontains u.email_primary q ||
  icontains u.id_number q || icontains u.phone q

/-- Model of `order_by` on `-created_at`: most recent first (stable sort). -/
def orderByCreatedDesc (l : List UserRec) : List UserRec :=
  l.mergeSort (fun a b => decide (b.created_at ≤ a.created_at))

/-- Model of `list_users` (`apps/users/selectors/users.py`): requires an actor
(else `ValueError`) whose role is in `ALLOWED_LIST_ROLES` (else
`PermissionDenied`, with a warning); when the filter dict is non-empty,
applies the `role` filter only if the value is a valid `Role` choice
(warning otherwise), the `status` filter only if a valid `Status` choice
(warning otherwise), and the four-field OR search for a non-blank
`search`; finally orders by `created_at` descending. Returns the outcome
together with the warnings emitted. -/
def list_users (filters : List (String × String)) (actor_user : Option UserRec)
    (store : List UserRec) : Except SvcError (List UserRec) × List String :=
  match actor_user with
  | none => (.error .valueError, [])
  | some a =>
    if ¬ ALLOWED_LIST_ROLES.contains a.role then
      (.error .permissionDenied, ["Intento de listar usuarios por usuario sin permisos"])
    else
      let step :=
        if filters ≠ [] then
          let (q1, w1) :=
            match lookupKey filters "role" with
            | some r =>
              if r ≠ "" then
                if roleChoices.contains r then (store.filter (fun (u : UserRec) => u.role == r), ([] : List String))
                else (store, ["Rol inválido en filtro: " ++ r])
              else (store, [])
            | none => (store, [])
          let (q2, w2) :=
            match lookupKey filters "status" with
            | some s =>
              if s ≠ "" then
                if statusChoices.contains s then (q1.filter (fun (u : UserRec) => u.status == s), ([] : List String))
                else (q1, ["Estado inválido en filtro: " ++ s])
              else (q1, [])
            | none => (q1, [])
          let q := pyStrip ((lookupKey filters "search").getD "")
          let q3 := if q ≠ "" then q2.filter (fun u => searchMatch u q) else q2
          (q3, w1 ++ w2)
        else (store, [])
      (.ok (orderByCreatedDesc step.1), step.2)

/-- Caller-visible outcome of `LoginView.post` (`apps/authn/views.py`).
`invalidCredentials` is the 401 response built from the serializer errors:
lookup failure and password failure produce the same value, so the two are
indistinguishable here by construction of the serializer model. -/
inductive LoginResponse where
  /-- 200 with tokens and the public user view. -/
  | success (userId : String)
  /-- 401, serializer errors. -/
  | invalidCredentials
  /-- 403 `'Usuario suspendido'`. -/
  | suspended
  /-- 500 `'Error al generar tokens'`. -/
  | tokenError
  deriving Repr, DecidableEq

/-- Full observable result of a login request. -/
structure LoginResult where
  response : LoginResponse
  events : List AuditEvent
  users : List UserRec
  deriving Repr, DecidableEq

/-- Modelled from the spec: `LoginSerializer.validate`
(`apps/authn/serializers.py` is not in the source tree; only its caller
`LoginView` is). Per spec §4.3 the serializer looks the user up by
normalized email and checks the password, and lookup failure and password
mismatch are indistinguishable: both make validation fail the same way, so
the model returns `none` for both. The suspended-status check is the
view's own branch (403), after credential validation. -/
def loginSerializerValidate (email password : String) (store : List UserRec) :
    Option UserRec :=
  let e := pyLower (pyStrip email)
  match store.find? (fun u => u.email_primary == e) with
  | none => none
  | some u => if verifyPassword password u.password_hash then some u else none

/-- Model of `LoginView.post` (`apps/authn/views.py`): when serializer validation
fails, emits `LOGIN_FAILED` (actor `none`, metadata email + reason
`invalid_credentials`) provided the request carried a non-empty email, and
answers 401; a suspended user gets `LOGIN_FAILED` (reason
`user_suspended`) and 403; otherwise tokens are issued (`tokensOk` models
the opaque token service call), `last_login_at` is set, `LOGIN_SUCCESS` is
emitted and 200 returned. -/
def loginPost (email password : String) (ip : Option String) (now : Nat)
    (tokensOk : Bool) (store : List UserRec) : LoginResult :=
  match loginSerializerValidate email password store with
  | none =>
    { response := .invalidCredentials
      events :=
        if email ≠ "" then
          [{ actor := none, action := LOGIN_FAILED, entity := "User",
             entity_id := none,
             metadata := [("email", .s email), ("reason", .s "invalid_credentials")],
             ip_address := ip }]
        else []
      users := store }
  | some u =>
    if u.status ≠ "ACTIVE" then
      { response := .suspended
        events := [{ actor := some u.id, action := LOGIN_FAILED, entity := "User",
                     entity_id := some u.id,
                     metadata := [("reason", .s "user_suspended")],
                     ip_address := ip }]
        users := store }
    else if ¬ tokensOk then
      { response := .tokenError, events := [], users := store }
    else
      let u' := { u with last_login_at := some now }
      { response := .success u.id
        events := [{ actor := some u.id, action := LOGIN_SUCCESS, entity := "User",
                     entity_id := some u.id,
                     metadata := [("email", .s u.email_primary)],
                     ip_address := ip }]
        users := store.map (fun v => if v.id == u.id then u' else v) }

/-- The registration endpoint: `UserRegisterSerializer.validate_email_primary`
(`apps/users/serializers.py`: strip + lowercase, then a uniqueness
pre-check that fails with the duplicate-email `ValidationError`) followed
by the `register_user` service with the normalised email
(`RegisterView.post`, `apps/authn/views.py`). A missing `email_primary` is
the DRF required-field error. -/
def registerFlow (data : List (String × String)) (ip : Option String)
    (freshId : String) (now : Nat) (store : List UserRec) :
    Except SvcError (UserRec × List UserRec × List AuditEvent) :=
  match lookupKey data "email_primary" with
  | none => .error (.missingRequired "email_primary")
  | some e =>
    let v := pyLower (pyStrip e)
    if store.any (fun u => u.email_primary == v) then .error .duplicateEmail
    else register_user (setKey data "email_primary" v) ip freshId now store

/-- A sample user row for concrete witnesses. -/
def sampleUser (uid role status : String) (t : Nat) : UserRec :=
  { id := uid, full_name := "Ana Ruiz", id_type := "CC", id_number := uid,
    birth_date := "1990-01-01", phone := "3000000000", address := "",
    profile_photo_url := "", email_primary := uid ++ "@x.com",
    email_secondary := "", role := role, status := status,
    password_hash := hashPassword "Secr3t!23", created_at := t, updated_at := t,
    last_login_at := none }

/-- The audit event of the C9 sample admin update (role CLIENT to
SUPERVISOR on `sampleUser "t1"`). -/
def roleChangeEvent : AuditEvent :=
  { actor := some "a1", action := USER_UPDATED_BY_ADMIN, entity := "User",
    entity_id := some "t1",
    metadata := [("updated_user_id", MetaVal.s "t1"),
                 ("updated_user_email", MetaVal.s "t1@x.com"),
                 ("updated_by", MetaVal.s "a1"),
                 ("changes", MetaVal.changes [("role", "CLIENT", "SUPERVISOR")])],
    ip_address := none }

/-! ## Helper lemmas -/

theorem containsStr {l : List String} {a : String} : l.contains a = true ↔ a ∈ l :=
  List.elem_iff

theorem create_user_ne_permissionDenied (e : String) (p : Option String)
    (extra : List (String × String)) (freshId : String) (now : Nat)
    (store : List UserRec) :
    create_user e p extra freshId now store ≠ .error .permissionDenied := by
  simp only [create_user]
  split
  · simp
  · split <;> split <;> simp

theorem lookupKey_append (d1 d2 : List (String × String)) (k : String) :
    lookupKey (d1 ++ d2) k =
      match lookupKey d1 k with
      | some v => some v
      | none => lookupKey d2 k := by
  induction d1 with
  | nil => rfl
  | cons kv rest ih =>
    obtain ⟨k0, v0⟩ := kv
    by_cases h : k0 = k <;> simp [lookupKey, h, ih]

theorem lookupKey_eraseKey_ne (d : List (String × String)) (k kGone : String)
    (h : k ≠ kGone) : lookupKey (eraseKey d kGone) k = lookupKey d k := by
  induction d with
  | nil => rfl
  | cons kv rest ih =>
    obtain ⟨k0, v0⟩ := kv
    by_cases h1 : k0 = kGone
    · have h2 : ¬ k0 = k := fun hh => h (by rw [← hh, h1])
      simp [eraseKey, List.filter_cons, h1, lookupKey, h2, Ne.symm h] at ih ⊢
      exact ih
    · have ih2 : lookupKey (List.filter (fun kv => !decide (kv.1 = kGone)) rest) k =
          lookupKey rest k := by simpa [eraseKey] using ih
      by_cases h2 : k0 = k <;>
        simp [eraseKey, List.filter_cons, h1, lookupKey, h2, h, Ne.symm h, ih2]

theorem lookupKey_setdefault_self (d : List (String × String)) (k v : String) :
    lookupKey (setdefault d k v) k = some ((lookupKey d k).getD v) := by
  unfold setdefault
  cases hd : lookupKey d k with
  | some x => simp [hd]
  | none =>
    simp only [hd, Option.isSome_none, Bool.false_eq_true, if_false, Option.getD_none]
    rw [lookupKey_append, hd]
    simp [lookupKey]

theorem lookupKey_setdefault_ne (d : List (String × String)) (k kNew v : String)
    (h : k ≠ kNew) : lookupKey (setdefault d kNew v) k = lookupKey d k := by
  unfold setdefault
  cases hd : lookupKey d kNew with
  | some x => simp [hd]
  | none =>
    simp only [hd, Option.isSome_none, Bool.false_eq_true, if_false]
    rw [lookupKey_append]
    cases hk : lookupKey d k with
    | some y => simp
    | none => simp [lookupKey, Ne.symm h]

/-! ## Claims -/

/-- C7: the audit logger never propagates a failure: it is a total
function; an empty `action` or `entity` yields `none`, persists nothing
and warns; an internal persistence failure yields `none` and persists
nothing; a row is persisted exactly when a record is returned. -/
theorem c7_audit_logger_never_raises :
    ∀ (persistOk : Bool) (actor : Option String) (action entity : String)
      (eid : Option String) (md : List (String × MetaVal)) (ip : Option String)
      (log : List AuditEvent),
      ((action = "" ∨ entity = "") →
        (log_audit_event persistOk actor action entity eid md ip log).result = none ∧
        (log_audit_event persistOk actor action entity eid md ip log).log = log ∧
        (log_audit_event persistOk actor action entity eid md ip log).warned = true) ∧
      (persistOk = false →
        (log_audit_event persistOk actor action entity eid md ip log).result = none ∧
        (log_audit_event persistOk actor action entity eid md ip log).log = log) ∧
      (∀ e, (log_audit_event persistOk actor action entity eid md ip log).result = some e →
        (log_audit_event persistOk actor action entity eid md ip log).log = log ++ [e]) := by
  intro persistOk actor action entity eid md ip log
  refine ⟨fun h => ?_, fun h => ?_, fun e he => ?_⟩
  · simp [log_audit_event, h]
  · subst h
    by_cases h2 : action = "" ∨ entity = "" <;> simp [log_audit_event, h2]
  · by_cases h2 : action = "" ∨ entity = "" <;>
      cases persistOk <;> simp_all [log_audit_event]

/-- C7 witness: calling the logger with `action = ""` returns `None`,
persists no row and warns; a persistence failure also returns `None`. -/
theorem c7_witness :
    (log_audit_event false none "" "User" none [] none []).result = none ∧
    (log_audit_event false none "" "User" none [] none []).log = [] ∧
    (log_audit_event false none "" "User" none [] none []).warned = true := by
  have h := c7_audit_logger_never_raises false none "" "User" none [] none []
  exact h.1 (Or.inl rfl)

/-- C1: a self-update whose data contains any prohibited key fails with
the `ValidationError` that names exactly the offending prohibited keys
(even when allowed keys are mixed in); since the service returns an error,
no field of the user is applied. -/
theorem c1_self_update_rejects_prohibited (user : UserRec)
    (data : List (String × String)) (ip : Option String)
    (h : ∃ k ∈ data.map Prod.fst, k ∈ SELF_PROHIBITED_FIELDS) :
    ∃ ks, update_self_user user data ip = .error (.prohibitedFields ks) ∧
      ks ≠ [] ∧
      (∀ k ∈ ks, k ∈ SELF_PROHIBITED_FIELDS ∧ k ∈ data.map Prod.fst) ∧
      (∀ k ∈ data.map Prod.fst, k ∈ SELF_PROHIBITED_FIELDS → k ∈ ks) := by
  have hne : (data.map Prod.fst).filter (fun k => SELF_PROHIBITED_FIELDS.contains k) ≠ [] := by
    obtain ⟨k, hk, hkp⟩ := h
    intro hnil
    have hmem : k ∈ (data.map Prod.fst).filter (fun k => SELF_PROHIBITED_FIELDS.contains k) :=
      List.mem_filter.mpr ⟨hk, containsStr.mpr hkp⟩
    rw [hnil] at hmem
    exact absurd hmem (List.not_mem_nil k)
  refine ⟨_, ?_, hne, ?_, ?_⟩
  · simp only [update_self_user]
    rw [if_pos hne]
  · intro k hk
    have := List.mem_filter.mp hk
    exact ⟨containsStr.mp this.2, this.1⟩
  · intro k hk hkp
    exact List.mem_filter.mpr ⟨hk, containsStr.mpr hkp⟩

/-- C1 witness: mixing the allowed key `full_name` with the prohibited
keys `role` and `email_primary` fails naming exactly those two. -/
theorem c1_witness :
    ∃ ks, update_self_user
        { id := "u1", full_name := "Ana", id_type := "CC", id_number := "1",
          birth_date := "1990-01-01", phone := "3000000000", address := "",
          profile_photo_url := "", email_primary := "ana@x.com",
          email_secondary := "", role := "CLIENT", status := "ACTIVE",
          password_hash := "", created_at := 0, updated_at := 0,
          last_login_at := none }
        [("full_name", "Ana Ruiz"), ("role", "ADMIN"), ("email_primary", "b@x.com")]
        none = .error (.prohibitedFields ks) ∧
      ks ≠ [] ∧
      (∀ k ∈ ks, k ∈ SELF_PROHIBITED_FIELDS ∧
        k ∈ ([("full_name", "Ana Ruiz"), ("role", "ADMIN"), ("email_primary", "b@x.com")].map Prod.fst)) ∧
      (∀ k ∈ ([("full_name", "Ana Ruiz"), ("role", "ADMIN"), ("email_primary", "b@x.com")].map
          (Prod.fst (α := String) (β := String))),
        k ∈ SELF_PROHIBITED_FIELDS → k ∈ ks) :=
  c1_self_update_rejects_prohibited _ _ none
    ⟨"role", by decide, by decide⟩

/-- C2: for an admin actor and an existing user, suspending an ACTIVE user
transitions it to SUSPENDED with exactly one `USER_SUSPENDED` event, while
suspending an already-SUSPENDED user succeeds, returns the record
unchanged with the store untouched and emits zero events; `activate` is
symmetric, emitting `USER_ACTIVATED` only on an actual transition. -/
theorem c2_suspend_activate_idempotent (store : List UserRec) (a u : UserRec)
    (uid : String) (ip : Option String)
    (hadm : a.role = "ADMIN")
    (hfind : store.find? (fun v => v.id == uid) = some u) :
    (u.status = "ACTIVE" →
      ∃ store' e, suspend_user uid a ip store =
          .ok ({ u with status := "SUSPENDED" }, store', [e]) ∧
        e.action = USER_SUSPENDED) ∧
    (u.status = "SUSPENDED" → suspend_user uid a ip store = .ok (u, store, [])) ∧
    (u.status = "SUSPENDED" →
      ∃ store' e, activate_user uid a ip store =
          .ok ({ u with status := "ACTIVE" }, store', [e]) ∧
        e.action = USER_ACTIVATED) ∧
    (u.status = "ACTIVE" → activate_user uid a ip store = .ok (u, store, [])) := by
  refine ⟨fun h => ?_, fun h => ?_, fun h => ?_, fun h => ?_⟩
  · refine ⟨store.map (fun v => if v.id == u.id then { u with status := "SUSPENDED" } else v),
      { actor := some a.id, action := USER_SUSPENDED, entity := "User",
        entity_id := some u.id,
        metadata := [("suspended_user_email", .s u.email_primary),
                     ("suspended_by", .s a.id)],
        ip_address := ip }, ?_, rfl⟩
    simp [suspend_user, hadm, hfind, h]
  · simp [suspend_user, hadm, hfind, h]
  · refine ⟨store.map (fun v => if v.id == u.id then { u with status := "ACTIVE" } else v),
      { actor := some a.id, action := USER_ACTIVATED, entity := "User",
        entity_id := some u.id,
        metadata := [("activated_user_email", .s u.email_primary),
                     ("activated_by", .s a.id)],
        ip_address := ip }, ?_, rfl⟩
    simp [activate_user, hadm, hfind, h]
  · simp [activate_user, hadm, hfind, h]

/-- C2 witness: one-user stores exercising the transition and the no-op
direction of both operations. -/
theorem c2_witness :
    (∃ store' e, suspend_user "u1" (sampleUser "a9" "ADMIN" "ACTIVE" 0) none
        [sampleUser "u1" "CLIENT" "ACTIVE" 1] =
        .ok ({ sampleUser "u1" "CLIENT" "ACTIVE" 1 with status := "SUSPENDED" }, store', [e]) ∧
      e.action = USER_SUSPENDED) ∧
    suspend_user "u1" (sampleUser "a9" "ADMIN" "ACTIVE" 0) none
        [sampleUser "u1" "CLIENT" "SUSPENDED" 1] =
      .ok (sampleUser "u1" "CLIENT" "SUSPENDED" 1, [sampleUser "u1" "CLIENT" "SUSPENDED" 1], []) ∧
    (∃ store' e, activate_user "u1" (sampleUser "a9" "ADMIN" "ACTIVE" 0) none
        [sampleUser "u1" "CLIENT" "SUSPENDED" 1] =
        .ok ({ sampleUser "u1" "CLIENT" "SUSPENDED" 1 with status := "ACTIVE" }, store', [e]) ∧
      e.action = USER_ACTIVATED) ∧
    activate_user "u1" (sampleUser "a9" "ADMIN" "ACTIVE" 0) none
        [sampleUser "u1" "CLIENT" "ACTIVE" 1] =
      .ok (sampleUser "u1" "CLIENT" "ACTIVE" 1, [sampleUser "u1" "CLIENT" "ACTIVE" 1], []) := by
  refine ⟨?_, ?_, ?_, ?_⟩
  · exact (c2_suspend_activate_idempotent _ _ _ _ none rfl (by decide)).1 rfl
  · exact (c2_suspend_activate_idempotent _ _ _ _ none rfl (by decide)).2.1 rfl
  · exact (c2_suspend_activate_idempotent _ _ _ _ none rfl (by decide)).2.2.1 rfl
  · exact (c2_suspend_activate_idempotent _ _ _ _ none rfl (by decide)).2.2.2 rfl

/-- C3: every admin-path operation (`create_user_by_admin`,
`update_user_by_admin`, `suspend_user`, `activate_user`) fails with
`PermissionDenied` for any non-ADMIN actor — before touching the store,
so it is left unchanged — and is never rejected with `PermissionDenied`
for an ADMIN actor. -/
theorem c3_admin_only_operations (a : UserRec) :
    (a.role ≠ "ADMIN" →
      ∀ (data : List (String × String)) (uid freshId : String)
        (ip : Option String) (now : Nat) (store : List UserRec),
        create_user_by_admin data a ip freshId now store = .error .permissionDenied ∧
        update_user_by_admin uid data a ip store = .error .permissionDenied ∧
        suspend_user uid a ip store = .error .permissionDenied ∧
        activate_user uid a ip store = .error .permissionDenied) ∧
    (a.role = "ADMIN" →
      ∀ (data : List (String × String)) (uid freshId : String)
        (ip : Option String) (now : Nat) (store : List UserRec),
        create_user_by_admin data a ip freshId now store ≠ .error .permissionDenied ∧
        update_user_by_admin uid data a ip store ≠ .error .permissionDenied ∧
        suspend_user uid a ip store ≠ .error .permissionDenied ∧
        activate_user uid a ip store ≠ .error .permissionDenied) := by
  constructor
  · intro h data uid freshId ip now store
    refine ⟨?_, ?_, ?_, ?_⟩ <;>
      simp [create_user_by_admin, update_user_by_admin, suspend_user, activate_user, h]
  · intro h data uid freshId ip now store
    refine ⟨?_, ?_, ?_, ?_⟩
    · simp only [create_user_by_admin, h]
      split
      · simp_all
      · split
        · simp
        · split
          · simp
          · split
            · simp
            · rename_i err _ heq
              intro hcontra
              obtain rfl : err = SvcError.permissionDenied := by injection hcontra
              exact create_user_ne_permissionDenied _ _ _ _ _ _ heq
            · simp
    · simp only [update_user_by_admin, h]
      split
      · simp_all
      · split
        · simp
        · split <;> split <;> simp
    · simp only [suspend_user, h]
      split
      · simp_all
      · split
        · simp
        · split <;> simp
    · simp only [activate_user, h]
      split
      · simp_all
      · split
        · simp
        · split <;> simp

/-- C3 witness: a CLIENT actor is denied on all four operations; an ADMIN
actor is not rejected by the role check. -/
theorem c3_witness :
    (create_user_by_admin [] (sampleUser "c1" "CLIENT" "ACTIVE" 0) none "f" 1 [] =
        .error .permissionDenied ∧
      update_user_by_admin "u1" [] (sampleUser "c1" "CLIENT" "ACTIVE" 0) none [] =
        .error .permissionDenied ∧
      suspend_user "u1" (sampleUser "c1" "CLIENT" "ACTIVE" 0) none [] =
        .error .permissionDenied ∧
      activate_user "u1" (sampleUser "c1" "CLIENT" "ACTIVE" 0) none [] =
        .error .permissionDenied) ∧
    (suspend_user "u1" (sampleUser "a9" "ADMIN" "ACTIVE" 0) none [] ≠
      .error .permissionDenied) := by
  constructor
  · exact (c3_admin_only_operations (sampleUser "c1" "CLIENT" "ACTIVE" 0)).1
      (by decide) [] "u1" "f" none 1 []
  · exact ((c3_admin_only_operations (sampleUser "a9" "ADMIN" "ACTIVE" 0)).2
      rfl [] "u1" "f" none 1 []).2.2.1

/-- C6: registering with an `email_primary` that, compared
case-insensitively, already belongs to a stored user (stored emails being
normalized lowercase) fails with the domain duplicate-email error — not
the raw storage `IntegrityError` — and, the flow returning an error, no
new user row is created. -/
theorem c6_register_duplicate_email (data : List (String × String)) (e : String)
    (ip : Option String) (freshId : String) (now : Nat) (store : List UserRec)
    (hlow : ∀ u ∈ store, pyLower u.email_primary = u.email_primary)
    (hemail : lookupKey data "email_primary" = some e)
    (hdup : ∃ u ∈ store, pyLower u.email_primary = pyLower (pyStrip e)) :
    registerFlow data ip freshId now store = .error .duplicateEmail := by
  obtain ⟨u, hu, hequ⟩ := hdup
  have hu2 : u.email_primary = pyLower (pyStrip e) := by rw [← hlow u hu, hequ]
  have hany : store.any (fun v => v.email_primary == pyLower (pyStrip e)) = true :=
    List.any_eq_true.mpr ⟨u, hu, by simp [hu2]⟩
  simp [registerFlow, hemail, hany]

/-- C6 witness: registering `"U1@X.com"` against a store holding
`"u1@x.com"` fails with the duplicate-email error. -/
theorem c6_witness :
    registerFlow [("email_primary", "U1@X.com"), ("password", "Secr3t!23")] none "f" 5
        [sampleUser "u1" "CLIENT" "ACTIVE" 0] = .error .duplicateEmail :=
  c6_register_duplicate_email _ "U1@X.com" none "f" 5 _
    (by decide) (by decide) ⟨sampleUser "u1" "CLIENT" "ACTIVE" 0, by decide, by decide⟩

/-- C10 (implicit): `register_user` applies the `CLIENT`/`ACTIVE` defaults
only when the `role`/`status` keys are absent from `data`; whenever
registration succeeds, the created user carries the caller-supplied role
and status when those keys are present — the service never forces
`role = CLIENT`. -/
theorem c10_register_defaults_only_when_absent (data : List (String × String))
    (ip : Option String) (freshId : String) (now : Nat) (store : List UserRec) :
    ∀ u store2 evs, register_user data ip freshId now store = .ok (u, store2, evs) →
      u.role = (lookupKey data "role").getD "CLIENT" ∧
      u.status = (lookupKey data "status").getD "ACTIVE" := by
  intro u store2 evs hok
  have hcreate : ∀ (e : String) (p : Option String) (extra : List (String × String))
      (fid : String) (t : Nat) (st : List UserRec) (u1 : UserRec) (st2 : List UserRec),
      create_user e p extra fid t st = .ok (u1, st2) →
      u1.role = (lookupKey extra "role").getD "CLIENT" ∧
      u1.status = (lookupKey extra "status").getD "ACTIVE" := by
    intro e p extra fid t st u1 st2 h
    simp only [create_user] at h
    split at h
    · cases h
    · split at h <;> split at h
      · cases h
      · injection h with h1
        injection h1 with hu hst
        subst hu
        constructor <;> simp [mkUser]
      · cases h
      · injection h with h1
        injection h1 with hu hst
        subst hu
        constructor <;> simp [mkUser]
  simp only [register_user] at hok
  split at hok
  · cases hok
  · split at hok
    · cases hok
    · rename_i e he3
      cases hcu : create_user e (lookupKey data "password")
          (eraseKey (setdefault (setdefault (eraseKey data "password") "role" "CLIENT")
            "status" "ACTIVE") "email_primary") freshId now store with
      | error err =>
        rw [hcu] at hok
        cases err <;> simp at hok
      | ok pr =>
        obtain ⟨u1, st1⟩ := pr
        rw [hcu] at hok
        injection hok with hok1
        injection hok1 with hu hrest
        subst hu
        obtain ⟨hr, hs⟩ := hcreate _ _ _ _ _ _ _ _ hcu
        constructor
        · rw [hr, lookupKey_eraseKey_ne _ _ _ (by decide),
            lookupKey_setdefault_ne _ _ _ _ (by decide),
            lookupKey_setdefault_self,
            lookupKey_eraseKey_ne _ _ _ (by decide)]
          simp
        · rw [hs, lookupKey_eraseKey_ne _ _ _ (by decide),
            lookupKey_setdefault_self,
            lookupKey_setdefault_ne _ _ _ _ (by decide),
            lookupKey_eraseKey_ne _ _ _ (by decide)]
          simp

/-- C10 witness: registering with `role = ADMIN` supplied keeps `ADMIN`
(and the absent `status` defaults to `ACTIVE`). -/
theorem c10_witness :
    ({ id := "f7", full_name := "", id_type := "", id_number := "",
       birth_date := "", phone := "", address := "", profile_photo_url := "",
       email_primary := "b@x.com", email_secondary := "", role := "ADMIN",
       status := "ACTIVE", password_hash := hashPassword "Secr3t!23",
       created_at := 9, updated_at := 9, last_login_at := none } : UserRec).role =
        (lookupKey [("email_primary", "b@x.com"), ("password", "Secr3t!23"),
          ("role", "ADMIN")] "role").getD "CLIENT" ∧
    ({ id := "f7", full_name := "", id_type := "", id_number := "",
       birth_date := "", phone := "", address := "", profile_photo_url := "",
       email_primary := "b@x.com", email_secondary := "", role := "ADMIN",
       status := "ACTIVE", password_hash := hashPassword "Secr3t!23",
       created_at := 9, updated_at := 9, last_login_at := none } : UserRec).status =
        (lookupKey [("email_primary", "b@x.com"), ("password", "Secr3t!23"),
          ("role", "ADMIN")] "status").getD "ACTIVE" := by
  refine c10_register_defaults_only_when_absent
    [("email_primary", "b@x.com"), ("password", "Secr3t!23"), ("role", "ADMIN")]
    none "f7" 9 [] _
    [{ id := "f7", full_name := "", id_type := "", id_number := "",
       birth_date := "", phone := "", address := "", profile_photo_url := "",
       email_primary := "b@x.com", email_secondary := "", role := "ADMIN",
       status := "ACTIVE", password_hash := hashPassword "Secr3t!23",
       created_at := 9, updated_at := 9, last_login_at := none }]
    [{ actor := some "f7", action := USER_REGISTERED, entity := "User",
       entity_id := some "f7",
       metadata := [("email", .s "b@x.com"), ("role", .s "ADMIN")],
       ip_address := none }]
    (by rfl)

theorem orderByCreatedDesc_mem (l : List UserRec) (u : UserRec) :
    u ∈ orderByCreatedDesc l ↔ u ∈ l := by
  unfold orderByCreatedDesc
  exact List.mem_mergeSort

theorem orderByCreatedDesc_sorted (l : List UserRec) :
    (orderByCreatedDesc l).Pairwise (fun x y => y.created_at ≤ x.created_at) := by
  have h := @List.sorted_mergeSort UserRec
    (fun a b => decide (b.created_at ≤ a.created_at))
    (fun a b c hab hbc => by
      simp only [decide_eq_true_eq] at hab hbc ⊢
      exact Nat.le_trans hbc hab)
    (fun a b => by
      simp only [Bool.or_eq_true, decide_eq_true_eq]
      exact Nat.le_total b.created_at a.created_at)
    l
  exact h.imp (fun hab => by simpa using hab)

/-- C4: `list_users` fails with `PermissionDenied` exactly when the actor
role is outside {ADMIN, SUPERVISOR, INTERVENTORIA} (so a CLIENT is always
denied); for an allowed actor and a valid role filter the result holds
exactly the users of that role, ordered by `created_at` descending. -/
theorem c4_list_users_policy_and_role_filter (a : UserRec) (store : List UserRec) :
    (∀ filters, ((list_users filters (some a) store).1 = .error .permissionDenied ↔
        a.role ∉ ALLOWED_LIST_ROLES)) ∧
    (a.role ∈ ALLOWED_LIST_ROLES →
      ∀ r, r ∈ roleChoices → r ≠ "" →
        ∃ l, (list_users [("role", r)] (some a) store).1 = .ok l ∧
          (∀ u, u ∈ l ↔ u ∈ store ∧ u.role = r) ∧
          l.Pairwise (fun x y => y.created_at ≤ x.created_at)) := by
  constructor
  · intro filters
    by_cases hc : ALLOWED_LIST_ROLES.contains a.role
    · have hm : a.role ∈ ALLOWED_LIST_ROLES := containsStr.mp hc
      simp [list_users, hc, hm]
    · have hm : a.role ∉ ALLOWED_LIST_ROLES := fun hmm => hc (containsStr.mpr hmm)
      simp [list_users, hc, hm]
  · intro hm r hr hrne
    have hc : ALLOWED_LIST_ROLES.contains a.role = true := containsStr.mpr hm
    have hrc : roleChoices.contains r = true := containsStr.mpr hr
    refine ⟨orderByCreatedDesc (store.filter (fun u => u.role == r)), ?_, ?_, ?_⟩
    · simp [list_users, hc, hm, lookupKey, hrne, hrc, hr, pyStrip]
    · intro u
      rw [orderByCreatedDesc_mem, List.mem_filter]
      simp
    · exact orderByCreatedDesc_sorted _

/-- C4 witness: a CLIENT actor is denied; a SUPERVISOR actor filtering
`role = ADMIN` over a two-user store gets exactly the ADMIN user. -/
theorem c4_witness :
    ((list_users [] (some (sampleUser "c1" "CLIENT" "ACTIVE" 0))
        [sampleUser "u9" "ADMIN" "ACTIVE" 3]).1 = .error .permissionDenied ↔
      (sampleUser "c1" "CLIENT" "ACTIVE" 0).role ∉ ALLOWED_LIST_ROLES) ∧
    (∃ l, (list_users [("role", "ADMIN")]
        (some (sampleUser "s1" "SUPERVISOR" "ACTIVE" 0))
        [sampleUser "u9" "ADMIN" "ACTIVE" 3, sampleUser "u2" "CLIENT" "ACTIVE" 5]).1 = .ok l ∧
      (∀ u, u ∈ l ↔
        u ∈ [sampleUser "u9" "ADMIN" "ACTIVE" 3, sampleUser "u2" "CLIENT" "ACTIVE" 5] ∧
        u.role = "ADMIN") ∧
      l.Pairwise (fun x y => y.created_at ≤ x.created_at)) := by
  constructor
  · exact (c4_list_users_policy_and_role_filter _ _).1 []
  · exact (c4_list_users_policy_and_role_filter _ _).2 (by decide) "ADMIN" (by decide) (by decide)

theorem subListOf_iff_infix (n : List Char) : ∀ h : List Char,
    subListOf n h = true ↔ n <:+: h := by
  intro h
  induction h with
  | nil => simp [subListOf]
  | cons c t ih =>
    simp [subListOf, Bool.or_eq_true, ih, List.infix_cons_iff]

/-- C5: for an allowed actor, (i) an invalid `role` filter value is
ignored with a warning and the call still succeeds with the same result as
without that filter, (ii) likewise for an invalid `status` value, (iii)
the `search` filter keeps exactly the users with a case-insensitive
substring match on full_name OR email_primary OR id_number OR phone, and
(iv) every successful result is ordered by `created_at` descending. -/
theorem c5_list_users_filter_semantics (a : UserRec) (store : List UserRec)
    (hm : a.role ∈ ALLOWED_LIST_ROLES) :
    (∀ r rest, r ≠ "" → r ∉ roleChoices → lookupKey rest "role" = none →
      (list_users (("role", r) :: rest) (some a) store).1 =
        (list_users rest (some a) store).1 ∧
      ("Rol inválido en filtro: " ++ r) ∈
        (list_users (("role", r) :: rest) (some a) store).2) ∧
    (∀ v rest, v ≠ "" → v ∉ statusChoices → lookupKey rest "status" = none →
      (list_users (("status", v) :: rest) (some a) store).1 =
        (list_users rest (some a) store).1 ∧
      ("Estado inválido en filtro: " ++ v) ∈
        (list_users (("status", v) :: rest) (some a) store).2) ∧
    (∀ q, pyStrip q ≠ "" →
      ∃ l, (list_users [("search", q)] (some a) store).1 = .ok l ∧
        ∀ u, u ∈ l ↔ u ∈ store ∧
          ((pyLower (pyStrip q)).data <:+: (pyLower u.full_name).data ∨
           (pyLower (pyStrip q)).data <:+: (pyLower u.email_primary).data ∨
           (pyLower (pyStrip q)).data <:+: (pyLower u.id_number).data ∨
           (pyLower (pyStrip q)).data <:+: (pyLower u.phone).data)) ∧
    (∀ filters, ∃ l, (list_users filters (some a) store).1 = .ok l ∧
      l.Pairwise (fun x y => y.created_at ≤ x.created_at)) := by
  have hc : ALLOWED_LIST_ROLES.contains a.role = true := containsStr.mpr hm
  refine ⟨?_, ?_, ?_, ?_⟩
  · intro r rest hrne hrinv hrest
    have hrc : roleChoices.contains r = false := by
      cases hcc : roleChoices.contains r
      · rfl
      · exact absurd (containsStr.mp hcc) hrinv
    by_cases hre : rest = []
    · subst hre
      constructor <;> simp [list_users, hc, hm, lookupKey, hrne, hrinv, pyStrip]
    · cases hs : lookupKey rest "status" <;> cases hq : lookupKey rest "search" <;>
        constructor <;>
        simp [list_users, hc, hm, lookupKey, hrne, hrinv, hrest, hs, hq, hre]
  · intro v rest hvne hvinv hvrest
    by_cases hre : rest = []
    · subst hre
      constructor <;> simp [list_users, hc, hm, lookupKey, hvne, hvinv, pyStrip]
    · cases hr : lookupKey rest "role" <;> cases hq : lookupKey rest "search" <;>
        constructor <;>
        simp [list_users, hc, hm, lookupKey, hvne, hvinv, hvrest, hr, hq, hre]
  · intro q hq
    refine ⟨orderByCreatedDesc (store.filter (fun u => searchMatch u (pyStrip q))), ?_, ?_⟩
    · simp [list_users, hc, hm, lookupKey, hq]
    · intro u
      rw [orderByCreatedDesc_mem, List.mem_filter]
      simp [searchMatch, icontains, Bool.or_eq_true, subListOf_iff_infix]
      tauto
  · intro filters
    simp only [list_users]
    rw [if_neg (by simpa using hm)]
    exact ⟨_, rfl, orderByCreatedDesc_sorted _⟩

/-- C5 witness: an invalid role value `"ROOT"` is ignored with a warning
(same result as no filter), and a concrete search call has the documented
OR-substring semantics. -/
theorem c5_witness :
    ((list_users [("role", "ROOT")] (some (sampleUser "s1" "SUPERVISOR" "ACTIVE" 0))
        [sampleUser "u2" "CLIENT" "ACTIVE" 5]).1 =
      (list_users [] (some (sampleUser "s1" "SUPERVISOR" "ACTIVE" 0))
        [sampleUser "u2" "CLIENT" "ACTIVE" 5]).1 ∧
      ("Rol inválido en filtro: " ++ "ROOT") ∈
        (list_users [("role", "ROOT")] (some (sampleUser "s1" "SUPERVISOR" "ACTIVE" 0))
          [sampleUser "u2" "CLIENT" "ACTIVE" 5]).2) ∧
    (∃ l, (list_users [("search", "Ana")]
        (some (sampleUser "s1" "SUPERVISOR" "ACTIVE" 0))
        [sampleUser "u2" "CLIENT" "ACTIVE" 5]).1 = .ok l ∧
      ∀ u, u ∈ l ↔ u ∈ [sampleUser "u2" "CLIENT" "ACTIVE" 5] ∧
        ((pyLower (pyStrip "Ana")).data <:+: (pyLower u.full_name).data ∨
         (pyLower (pyStrip "Ana")).data <:+: (pyLower u.email_primary).data ∨
         (pyLower (pyStrip "Ana")).data <:+: (pyLower u.id_number).data ∨
         (pyLower (pyStrip "Ana")).data <:+: (pyLower u.phone).data)) := by
  constructor
  · exact (c5_list_users_filter_semantics _ _ (by decide)).1 "ROOT" []
      (by decide) (by decide) rfl
  · exact (c5_list_users_filter_semantics _ _ (by decide)).2.2.1 "Ana" (by decide)

/-- C8: a login with an unknown email and a login with a known email but
wrong password produce identical caller-visible outcomes: the same 401
`invalidCredentials` response value, no store change, and one
`LOGIN_FAILED` event each with actor null and metadata
`email` + `reason = invalid_credentials`. -/
theorem c8_login_failures_indistinguishable (store : List UserRec)
    (e1 p1 e2 p2 : String) (u : UserRec) (ip : Option String) (now : Nat)
    (tokensOk : Bool)
    (h1ne : e1 ≠ "")
    (h1 : store.find? (fun v => v.email_primary == pyLower (pyStrip e1)) = none)
    (h2ne : e2 ≠ "")
    (hu : store.find? (fun v => v.email_primary == pyLower (pyStrip e2)) = some u)
    (hp : verifyPassword p2 u.password_hash = false) :
    (loginPost e1 p1 ip now tokensOk store).response = .invalidCredentials ∧
    (loginPost e2 p2 ip now tokensOk store).response = .invalidCredentials ∧
    (loginPost e1 p1 ip now tokensOk store).response =
      (loginPost e2 p2 ip now tokensOk store).response ∧
    (loginPost e1 p1 ip now tokensOk store).users = store ∧
    (loginPost e2 p2 ip now tokensOk store).users = store ∧
    (loginPost e1 p1 ip now tokensOk store).events =
      [{ actor := none, action := LOGIN_FAILED, entity := "User", entity_id := none,
         metadata := [("email", .s e1), ("reason", .s "invalid_credentials")],
         ip_address := ip }] ∧
    (loginPost e2 p2 ip now tokensOk store).events =
      [{ actor := none, action := LOGIN_FAILED, entity := "User", entity_id := none,
         metadata := [("email", .s e2), ("reason", .s "invalid_credentials")],
         ip_address := ip }] := by
  have r1 : loginPost e1 p1 ip now tokensOk store =
      { response := .invalidCredentials
        events := [{ actor := none, action := LOGIN_FAILED, entity := "User",
                     entity_id := none,
                     metadata := [("email", .s e1), ("reason", .s "invalid_credentials")],
                     ip_address := ip }]
        users := store } := by
    simp [loginPost, loginSerializerValidate, h1, h1ne]
  have r2 : loginPost e2 p2 ip now tokensOk store =
      { response := .invalidCredentials
        events := [{ actor := none, action := LOGIN_FAILED, entity := "User",
                     entity_id := none,
                     metadata := [("email", .s e2), ("reason", .s "invalid_credentials")],
                     ip_address := ip }]
        users := store } := by
    simp [loginPost, loginSerializerValidate, hu, hp, h2ne]
  rw [r1, r2]
  exact ⟨rfl, rfl, rfl, rfl, rfl, rfl, rfl⟩

theorem lookupMeta_changes (x y z : String) (cs : List (String × String × String)) :
    lookupMeta ([("updated_user_id", MetaVal.s x), ("updated_user_email", MetaVal.s y),
        ("updated_by", MetaVal.s z)] ++
      (if cs ≠ [] then [("changes", MetaVal.changes cs)] else [])) "changes" =
      (if cs = [] then none else some (MetaVal.changes cs)) := by
  by_cases h : cs = [] <;> simp [lookupMeta, h]

/-- C9: an admin update of an existing user emits one
`USER_UPDATED_BY_ADMIN` event whose metadata has a `changes` key holding
{old, new} pairs for exactly those of `role`, `status`, `email_primary`
that actually changed, and no `changes` key at all when none changed. -/
theorem c9_admin_update_audit_diff (store : List UserRec) (a u : UserRec)
    (uid : String) (data : List (String × String)) (ip : Option String)
    (hadm : a.role = "ADMIN")
    (hfind : store.find? (fun v => v.id == uid) = some u) :
    ∀ u2 store2 evs, update_user_by_admin uid data a ip store = .ok (u2, store2, evs) →
      ∃ e, evs = [e] ∧ e.action = USER_UPDATED_BY_ADMIN ∧
        lookupMeta e.metadata "changes" =
          (if ((if u.role ≠ u2.role then [("role", u.role, u2.role)] else []) ++
              (if u.status ≠ u2.status then [("status", u.status, u2.status)] else []) ++
              (if u.email_primary ≠ u2.email_primary
                then [("email_primary", u.email_primary, u2.email_primary)] else [])) = []
          then none
          else some (MetaVal.changes
            ((if u.role ≠ u2.role then [("role", u.role, u2.role)] else []) ++
             (if u.status ≠ u2.status then [("status", u.status, u2.status)] else []) ++
             (if u.email_primary ≠ u2.email_primary
               then [("email_primary", u.email_primary, u2.email_primary)] else [])))) := by
  intro u2 store2 evs hok
  simp only [update_user_by_admin] at hok
  rw [if_neg (by simp [hadm])] at hok
  rw [hfind] at hok
  split at hok
  · rename_i heq
    cases heq
  rename_i user heq
  injection heq with huser
  subst huser
  split at hok <;> split at hok
  · cases hok
  · injection hok with hok1
    injection hok1 with hu2 hrest
    injection hrest with hst hevs
    subst hu2
    subst hevs
    exact ⟨_, rfl, rfl, lookupMeta_changes _ _ _ _⟩
  · cases hok
  · injection hok with hok1
    injection hok1 with hu2 hrest
    injection hrest with hst hevs
    subst hu2
    subst hevs
    exact ⟨_, rfl, rfl, lookupMeta_changes _ _ _ _⟩

/-- C8 witness: against a one-user store, a nonexistent email and a wrong
password for the existing email both yield the 401 `invalidCredentials`
response, and the two responses are equal. -/
theorem c8_witness :
    (loginPost "ghost@x.com" "pw" none 7 true
        [sampleUser "u1" "CLIENT" "ACTIVE" 1]).response = .invalidCredentials ∧
    (loginPost "u1@x.com" "wrongpass" none 7 true
        [sampleUser "u1" "CLIENT" "ACTIVE" 1]).response = .invalidCredentials ∧
    (loginPost "ghost@x.com" "pw" none 7 true
        [sampleUser "u1" "CLIENT" "ACTIVE" 1]).response =
      (loginPost "u1@x.com" "wrongpass" none 7 true
        [sampleUser "u1" "CLIENT" "ACTIVE" 1]).response := by
  have h := c8_login_failures_indistinguishable [sampleUser "u1" "CLIENT" "ACTIVE" 1]
    "ghost@x.com" "pw" "u1@x.com" "wrongpass" (sampleUser "u1" "CLIENT" "ACTIVE" 1)
    none 7 true (by decide) (by decide) (by decide) (by decide) (by decide)
  exact ⟨h.1, h.2.1, h.2.2.1⟩

/-- C9 witness: an admin changing a user's role from CLIENT to SUPERVISOR
yields `metadata.changes = [(role, CLIENT, SUPERVISOR)]` on the single
`USER_UPDATED_BY_ADMIN` event. -/
theorem c9_witness :
    lookupMeta roleChangeEvent.metadata "changes" =
      some (MetaVal.changes [("role", "CLIENT", "SUPERVISOR")]) := by
  have h := c9_admin_update_audit_diff [sampleUser "t1" "CLIENT" "ACTIVE" 2]
    (sampleUser "a1" "ADMIN" "ACTIVE" 0) (sampleUser "t1" "CLIENT" "ACTIVE" 2)
    "t1" [("role", "SUPERVISOR")] none rfl (by decide)
    { sampleUser "t1" "CLIENT" "ACTIVE" 2 with role := "SUPERVISOR" }
    [{ sampleUser "t1" "CLIENT" "ACTIVE" 2 with role := "SUPERVISOR" }]
    [roleChangeEvent]
    (by rfl)
  obtain ⟨e, hevs, hact, hch⟩ := h
  have he : e = roleChangeEvent := by
    injection hevs with h1 h2
    exact h1.symm
  subst he
  rw [hch]
  decide

end CASSE





